import Mathlib

/-!
Verification of the extraction-coalescing pipeline of `indonewscop.py`.

The program fetches news-article URLs, extracts structured content with a
primary extractor (trafilatura) and a fallback extractor (newspaper3k),
merges the partial results field by field, and emits one record per URL.

This file shallowly embeds the decision logic of the source:

* `ArticleRecord` models the Python dict produced by the adapters and the
  coalescer (`url`, `title`, `authors`, `date`, `text`, `sitename`); a field
  that may be missing from the dict is an `Option`, and Python truthiness of
  a field value is made explicit by the `truthy…` helpers.
* `coalesce_article` embeds the function of the same name, parametrised over
  the two adapter calls so that dependence on them can be stated.
* `fetch_with_trafilatura` / `fetch_with_newspaper` embed the two adapter
  bodies.  Third-party calls (trafilatura fetch/extract, json.loads,
  newspaper's Article, the system timezone) are parameters; a call that may
  raise a Python exception is a value of `Except PyExn _`, and Python's
  `try/except Exception: …` is `pyTry`.
* `slugify`, `robots_allowed`, the batch loop of `main` and the `authors`
  finalization of `main` are embedded directly.
-/

/-- A Python exception value (only its presence matters here). -/
inductive PyExn where
  | exn (msg : String)
deriving DecidableEq, Repr

/-- Python `try: … except Exception: return None` around a block producing an
optional result: an exception is converted to `none`. -/
def pyTry {α : Type} (x : Except PyExn (Option α)) : Option α :=
  match x with
  | .ok v => v
  | .error _ => none

/-- The value stored under the `authors` key of a record.  The source is
dynamically typed: trafilatura's `author` metadata is a bare string, while
`authors` lists and the `[]` default are lists, so both shapes occur. -/
inductive AuthorsVal where
  | str (s : String)
  | list (l : List String)
deriving DecidableEq, Repr

/-- Python truthiness of an optional string field (`None` and `""` are falsy). -/
def truthyStr : Option String → Bool
  | none => false
  | some s => s != ""

/-- Python truthiness of an optional `authors` value (`None`, `""` and `[]`
are falsy). -/
def truthyAuthors : Option AuthorsVal → Bool
  | none => false
  | some (.str s) => s != ""
  | some (.list l) => !l.isEmpty

/-- Whether the `authors` value is a sequence (a Python list), as opposed to a
bare string or absent. -/
def authorsIsSequence : Option AuthorsVal → Bool
  | some (.list _) => true
  | _ => false

/-- The record dict flowing through the pipeline.  The adapters populate all
six keys; the stub `{"url": url}` has only `url`, so every other field is an
`Option` with `none` meaning the key is absent from the dict. -/
structure ArticleRecord where
  url : String
  title : Option String
  authors : Option AuthorsVal
  date : Option String
  text : Option String
  sitename : Option String
deriving DecidableEq, Repr

/-- The stub record `{"url": url}` returned when no extractor produced
anything. -/
def stubRecord (url : String) : ArticleRecord :=
  { url := url, title := none, authors := none, date := none, text := none,
    sitename := none }

/-- The sufficiency test of `coalesce_article`:
`data.get("title") and data.get("text")` (both truthy). -/
def sufficientB (r : ArticleRecord) : Bool :=
  truthyStr r.title && truthyStr r.text

/-- Sufficiency of an optional adapter result:
`data and data.get("title") and data.get("text")`. -/
def recSufficient : Option ArticleRecord → Bool
  | none => false
  | some d => sufficientB d

/-- The back-fill loop of `coalesce_article`: for each key among `date`,
`authors`, `sitename`, if the fallback's value is falsy and the primary's is
truthy, copy the primary's value into the fallback record. -/
def backfill (fallback : ArticleRecord) (data : ArticleRecord) : ArticleRecord :=
  { fallback with
    date := if !truthyStr fallback.date && truthyStr data.date
      then data.date else fallback.date
    authors := if !truthyAuthors fallback.authors && truthyAuthors data.authors
      then data.authors else fallback.authors
    sitename := if !truthyStr fallback.sitename && truthyStr data.sitename
      then data.sitename else fallback.sitename }

/-- `coalesce_article`, parametrised over the two adapter calls
(`fetchP` is `fetch_with_trafilatura`, `fetchF` is `fetch_with_newspaper`):
return the primary result if it is sufficient; otherwise call the fallback,
and if that is sufficient, back-fill it from the primary (when the primary
returned anything) and return it; otherwise return the primary result if any,
else the stub. -/
def coalesce_article (fetchP fetchF : String → Option ArticleRecord)
    (url : String) : ArticleRecord :=
  match fetchP url with
  | some d =>
    if sufficientB d then d
    else
      match fetchF url with
      | some f => if sufficientB f then backfill f d else d
      | none => d
  | none =>
    match fetchF url with
    | some f => if sufficientB f then f else stubRecord url
    | none => stubRecord url

/-- The basic normalization applied in `main` after coalescing:
`if not record.get("authors"): record["authors"] = []`. -/
def finalize (r : ArticleRecord) : ArticleRecord :=
  if truthyAuthors r.authors then r else { r with authors := some (.list []) }

/-- The dict trafilatura's JSON output is parsed into, restricted to the keys
the source reads, with the value types trafilatura emits (`author` is a bare
string of the byline, `authors` a list when present). -/
structure TrafData where
  title : Option String
  author : Option String
  authors : Option (List String)
  date : Option String
  text : Option String
  sitename : Option String
deriving DecidableEq, Repr

/-- Python `a or b` for an optional string against a string default. -/
def pyOrStr (a : Option String) (b : String) : String :=
  if truthyStr a then a.getD "" else b

/-- The authors expression of `fetch_with_trafilatura`:
`data.get("author") or data.get("authors") or []`. -/
def pyOrAuthors (author : Option String) (authors : Option (List String)) :
    AuthorsVal :=
  if truthyStr author then .str (author.getD "")
  else
    match authors with
    | some l => if !l.isEmpty then .list l else .list []
    | none => .list []

/-- The record construction of `fetch_with_trafilatura` from the parsed JSON
dict.  `netloc` stands for `urlparse(url).netloc`, a standard-library call
outside this repository, passed in as a parameter. -/
def trafilatura_normalize (url netloc : String) (data : TrafData) :
    ArticleRecord :=
  { url := url
    title := data.title
    authors := some (pyOrAuthors data.author data.authors)
    date := data.date
    text := data.text
    sitename := some (pyOrStr data.sitename netloc) }

/-- `fetch_with_trafilatura`.  `fetch_url` and `extract` are the trafilatura
library calls; per their library contract (and the spec's fetcher boundary:
failure surfaces as no content, not a crash) they return an optional string.
`json_loads` may raise, and in the source it is the only call inside the
`try/except`; the dict construction after it cannot fail in this model.  The
result is in `Except` because an exception raised outside the `try` block
would propagate to the caller. -/
def fetch_with_trafilatura (fetch_url : String → Option String)
    (extract : String → Option String)
    (json_loads : String → Except PyExn TrafData)
    (netloc url : String) : Except PyExn (Option ArticleRecord) :=
  match fetch_url url with
  | none => .ok none
  | some downloaded =>
    if downloaded == "" then .ok none
    else
      match extract downloaded with
      | none => .ok none
      | some result_json =>
        if result_json == "" then .ok none
        else
          .ok (pyTry ((json_loads result_json).map fun data =>
            some (trafilatura_normalize url netloc data)))

/-- A Python `datetime`: an abstract wall-clock value together with an
optional UTC offset in minutes (`none` is a naive datetime). -/
structure PyDatetime where
  wall : Int
  tz : Option Int
deriving DecidableEq, Repr

/-- `d.astimezone(timezone.utc)` where `loc` is the system local timezone's
UTC offset in minutes: an aware datetime is shifted by its own offset; a
naive datetime is interpreted as system local time and shifted by `loc`
(Python 3.6+ semantics of the standard library, outside this repository). -/
def astimezone_utc (loc : Int) (d : PyDatetime) : PyDatetime :=
  match d.tz with
  | some o => { wall := d.wall - o, tz := some 0 }
  | none => { wall := d.wall - loc, tz := some 0 }

/-- `d.isoformat()`, abstracted: the standard library renders the wall-clock
value, followed by the UTC offset when the datetime is aware.  The rendering
of the calendar fields is abstracted to `toString d.wall`; it is injective on
the wall value and keeps naive and aware datetimes distinguishable, which is
all the theorems use. -/
def isoformat (d : PyDatetime) : String :=
  toString d.wall ++ (match d.tz with | none => "" | some o => "+" ++ toString o)

/-- The publish-date conversion of `fetch_with_newspaper`:
`dt = None; if art.publish_date: dt = art.publish_date.astimezone(timezone.utc).isoformat()`
(a datetime object is always truthy in Python). -/
def newspaper_date (loc : Int) (publish_date : Option PyDatetime) :
    Option String :=
  match publish_date with
  | none => none
  | some d => some (isoformat (astimezone_utc loc d))

/-- The parsed `newspaper.Article` state the source reads after
`download()`/`parse()`: `title` and `text` are strings (possibly empty),
`authors` a list, `publish_date` an optional datetime. -/
structure NewspaperArticle where
  title : String
  authors : List String
  publish_date : Option PyDatetime
  text : String
deriving DecidableEq, Repr

/-- The record construction of `fetch_with_newspaper` (`art.title or None`,
`art.authors or []`, publish date via `newspaper_date`, `art.text or None`,
`sitename` from `urlparse(url).netloc`). -/
def newspaper_normalize (loc : Int) (netloc url : String)
    (art : NewspaperArticle) : ArticleRecord :=
  { url := url
    title := if art.title != "" then some art.title else none
    authors := some (.list art.authors)
    date := newspaper_date loc art.publish_date
    text := if art.text != "" then some art.text else none
    sitename := some netloc }

/-- `fetch_with_newspaper`.  `newspaper_ok` is the import-time capability
flag `NEWSPAPER_OK`; `download_parse` stands for constructing the `Article`
and calling `download()` and `parse()`, any of which may raise; `nlp` is the
`art.nlp()` call whose failure is swallowed by the inner `try`.  The whole
body is inside `try/except Exception: return None`, modelled by `pyTry`. -/
def fetch_with_newspaper (newspaper_ok : Bool)
    (download_parse : String → Except PyExn NewspaperArticle)
    (nlp : NewspaperArticle → Except PyExn Unit)
    (loc : Int) (netloc url : String) : Except PyExn (Option ArticleRecord) :=
  if !newspaper_ok then .ok none
  else
    .ok (pyTry (do
      let art ← download_parse url
      let _ := match nlp art with | .ok _ => () | .error _ => ()
      pure (some (newspaper_normalize loc netloc url art))))

/-- `robots_allowed`: `rp.set_url`/`rp.read` may raise (modelled by
`read_result`); on an exception the function returns `True`, otherwise it
returns `rp.can_fetch(user_agent, url)` (modelled by `can_fetch`). -/
def robots_allowed (read_result : Except PyExn Unit) (can_fetch : Bool) : Bool :=
  match read_result with
  | .ok _ => can_fetch
  | .error _ => true

/-- The per-URL loop of `main`, restricted to the robots gate: a URL failing
the gate (when the gate is not skipped) is skipped with `continue`, every
other URL is processed and contributes one record. -/
def process_urls (skip_robots : Bool) (allowed : String → Bool)
    (handle : String → ArticleRecord) : List String → List ArticleRecord
  | [] => []
  | url :: rest =>
    if !skip_robots && !allowed url then
      process_urls skip_robots allowed handle rest
    else
      handle url :: process_urls skip_robots allowed handle rest

/-- The `authors` value used by `save_markdown` when rendering the
front-matter: `authors = record.get("authors") or []` followed by
`if isinstance(authors, str): authors = [authors]`. -/
def save_markdown_authors (r : ArticleRecord) : List String :=
  match r.authors with
  | some (.str s) => if s != "" then [s] else []
  | some (.list l) => if !l.isEmpty then l else []
  | none => []

/-- Python whitespace as matched by `str.strip()` and the regex class
backslash-s (the ASCII whitespace characters; the additional Unicode space
code points behave identically under the subsequent character filter and are
omitted). -/
def isPySpace (c : Char) : Bool :=
  c == ' ' || c == '\t' || c == '\n' || c == '\r' || c == '\x0b' || c == '\x0c'

/-- The character class kept by the first substitution of `slugify`
(lowercase ASCII letter, digit, whitespace, hyphen, underscore, dot). -/
def keepChar (c : Char) : Bool :=
  ('a' ≤ c && c ≤ 'z') || ('0' ≤ c && c ≤ '9') || isPySpace c ||
    c == '-' || c == '_' || c == '.'

/-- A character allowed in `slugify`'s output (lowercase ASCII letter, digit,
hyphen, underscore, dot). -/
def slugOutChar (c : Char) : Bool :=
  ('a' ≤ c && c ≤ 'z') || ('0' ≤ c && c ≤ '9') ||
    c == '-' || c == '_' || c == '.'

/-- `text.strip()`: drop leading and trailing whitespace. -/
def pyStrip (l : List Char) : List Char :=
  ((l.dropWhile isPySpace).reverse.dropWhile isPySpace).reverse

/-- The second substitution of `slugify`: replace each maximal run of
whitespace by a single hyphen. -/
def collapseWs : List Char → List Char
  | [] => []
  | [c] => if isPySpace c then ['-'] else [c]
  | c1 :: c2 :: rest =>
    if isPySpace c1 then
      if isPySpace c2 then collapseWs (c2 :: rest)
      else '-' :: collapseWs (c2 :: rest)
    else c1 :: collapseWs (c2 :: rest)

/-- `text.rstrip("-_")`: drop trailing hyphens and underscores. -/
def rstripDashUnderscore (l : List Char) : List Char :=
  (l.reverse.dropWhile (fun c => c == '-' || c == '_')).reverse

/-- The character pipeline of `slugify` before the final emptiness check:
strip, lowercase (`Char.toLower` is ASCII case mapping; a non-ASCII letter is
removed by the following filter either way), drop characters outside the kept
class, collapse whitespace to hyphens, and when the result exceeds `max_len`
characters truncate to `max_len` and strip trailing hyphens/underscores. -/
def slugChars (text : String) (max_len : Nat) : List Char :=
  let t := (pyStrip text.data).map Char.toLower
  let t := t.filter keepChar
  let t := collapseWs t
  if t.length > max_len then rstripDashUnderscore (t.take max_len) else t

/-- `slugify`: the character pipeline, with `"untitled"` substituted when it
comes out empty (`return text or "untitled"`). -/
def slugify (text : String) (max_len : Nat) : String :=
  let t := slugChars text max_len
  if t.isEmpty then "untitled" else String.mk t

/-- A concrete sufficient adapter record, used when exercising the
primary-sufficient path on sample inputs. -/
def wPrimarySufficient (u : String) : ArticleRecord :=
  { url := u, title := some "T", authors := some (.list ["A"]),
    date := some "2024-01-01", text := some "B", sitename := some "s" }

/-- A concrete insufficient primary record carrying only metadata (the spec's
second end-to-end scenario). -/
def wPartialPrimary (u : String) : ArticleRecord :=
  { url := u, title := none, authors := some (.list []),
    date := some "2023-05-01", text := none, sitename := some "site.com" }

/-- A concrete sufficient fallback record lacking date and sitename (the
spec's second end-to-end scenario). -/
def wFallbackSufficient (u : String) : ArticleRecord :=
  { url := u, title := some "T", authors := some (.list []),
    date := none, text := some "Body", sitename := some "" }

/-- C1: when the primary (trafilatura) result is sufficient — non-empty
`title` and non-empty `text` — `coalesce_article` returns that primary record
exactly (all fields unchanged), and the result is independent of the fallback
adapter, which is reached only in the insufficient branches. -/
theorem coalesce_primary_sufficient
    (fetchP fetchF fetchF' : String → Option ArticleRecord)
    (url : String) (d : ArticleRecord)
    (hp : fetchP url = some d) (hs : sufficientB d = true) :
    coalesce_article fetchP fetchF url = d ∧
    coalesce_article fetchP fetchF url = coalesce_article fetchP fetchF' url := by
  unfold coalesce_article
  rw [hp]
  simp [hs]

/-- C2: when the primary result is insufficient and the fallback is
sufficient, the returned record's `title` and `text` are the fallback's, and
each of `date`, `authors`, `sitename` is the primary's value exactly when the
fallback's value is falsy and the primary's is truthy, and the fallback's
value otherwise. -/
theorem coalesce_fallback_backfill
    (fetchP fetchF : String → Option ArticleRecord) (url : String)
    (f : ArticleRecord)
    (hp : recSufficient (fetchP url) = false)
    (hf : fetchF url = some f) (hs : sufficientB f = true) :
    (coalesce_article fetchP fetchF url).title = f.title ∧
    (coalesce_article fetchP fetchF url).text = f.text ∧
    (coalesce_article fetchP fetchF url).date =
      (if !truthyStr f.date && truthyStr ((fetchP url).bind ArticleRecord.date)
        then (fetchP url).bind ArticleRecord.date else f.date) ∧
    (coalesce_article fetchP fetchF url).authors =
      (if !truthyAuthors f.authors &&
            truthyAuthors ((fetchP url).bind ArticleRecord.authors)
        then (fetchP url).bind ArticleRecord.authors else f.authors) ∧
    (coalesce_article fetchP fetchF url).sitename =
      (if !truthyStr f.sitename &&
            truthyStr ((fetchP url).bind ArticleRecord.sitename)
        then (fetchP url).bind ArticleRecord.sitename else f.sitename) := by
  cases hpe : fetchP url with
  | none =>
    unfold coalesce_article
    rw [hpe, hf]
    simp [hs, truthyStr, truthyAuthors]
  | some d =>
    have hd : sufficientB d = false := by rw [hpe] at hp; exact hp
    unfold coalesce_article
    rw [hpe, hf]
    simp [hd, hs, backfill]

/-- C3: when neither adapter result is sufficient, `coalesce_article` returns
the primary result whenever the primary returned anything at all, and
otherwise the stub record whose only populated field is `url`. -/
theorem coalesce_insufficient
    (fetchP fetchF : String → Option ArticleRecord) (url : String)
    (hp : recSufficient (fetchP url) = false)
    (hf : recSufficient (fetchF url) = false) :
    (∀ d, fetchP url = some d → coalesce_article fetchP fetchF url = d) ∧
    (fetchP url = none →
      coalesce_article fetchP fetchF url =
        { url := url, title := none, authors := none, date := none,
          text := none, sitename := none }) := by
  constructor
  · intro d hd
    rw [hd] at hp
    unfold coalesce_article
    rw [hd]
    cases hfe : fetchF url with
    | none => simp [show sufficientB d = false from hp]
    | some f =>
      rw [hfe] at hf
      simp [show sufficientB d = false from hp,
        show sufficientB f = false from hf]
  · intro hd
    unfold coalesce_article
    rw [hd]
    cases hfe : fetchF url with
    | none => rfl
    | some f =>
      rw [hfe] at hf
      simp [show sufficientB f = false from hf, stubRecord]

/-- C6: the coalescer is a deterministic function of the two adapter results
alone — any two adapter pairs that agree on the given URL produce the same
record, so two runs on the same outputs are identical and no other state
enters the result. -/
theorem coalesce_deterministic
    (fetchP fetchP' fetchF fetchF' : String → Option ArticleRecord)
    (url : String)
    (hP : fetchP url = fetchP' url) (hF : fetchF url = fetchF' url) :
    coalesce_article fetchP fetchF url = coalesce_article fetchP' fetchF' url := by
  unfold coalesce_article
  rw [hP, hF]

/-- C7: when both adapters stamp the input URL into their records (as the two
normalizations do, last two conjuncts), every coalesce result — primary,
back-filled fallback, or stub — carries `url` equal to the input URL, and the
back-fill step never touches the `url` field. -/
theorem coalesce_url_preserved
    (fetchP fetchF : String → Option ArticleRecord) (url : String)
    (hP : ∀ r, fetchP url = some r → r.url = url)
    (hF : ∀ r, fetchF url = some r → r.url = url) :
    (coalesce_article fetchP fetchF url).url = url ∧
    (∀ f d, (backfill f d).url = f.url) ∧
    (∀ netloc data, (trafilatura_normalize url netloc data).url = url) ∧
    (∀ loc netloc art, (newspaper_normalize loc netloc url art).url = url) := by
  refine ⟨?_, fun f d => rfl, fun netloc data => rfl, fun loc netloc art => rfl⟩
  unfold coalesce_article
  cases hpe : fetchP url with
  | none =>
    cases hfe : fetchF url with
    | none => rfl
    | some f =>
      by_cases hsf : sufficientB f = true
      · simpa [hsf] using hF f hfe
      · simp [hsf, stubRecord]
  | some d =>
    have hd := hP d hpe
    by_cases hsd : sufficientB d = true
    · simpa [hsd] using hd
    · cases hfe : fetchF url with
      | none => simpa [hsd] using hd
      | some f =>
        by_cases hsf : sufficientB f = true
        · simpa [hsd, hsf, backfill] using hF f hfe
        · simpa [hsd, hsf] using hd

/-- C4 (counterexample): the claim fails on the code.  When trafilatura
reports the byline as a bare string (its `author` metadata), the adapter
stores that string under `authors`, the coalescer returns it untouched on the
sufficient-primary path, and the finalization in `main` only replaces a falsy
`authors` value — so the final record's `authors` is a bare non-empty string,
not a sequence. -/
theorem authors_bare_string_counterexample :
    authorsIsSequence (finalize (coalesce_article
      (fun u => some (trafilatura_normalize u "example.com"
        { title := some "Jakarta update", author := some "Jane Doe",
          authors := none, date := none, text := some "Body text",
          sitename := some "Example" }))
      (fun _ => none) "http://example.com/a")).authors = false := by
  rfl

/-- C4 (amended): after the finalization step the `authors` key is always
present — a falsy value (absent, empty string, empty list) is replaced by the
empty list, and a list stays a list — but a non-empty bare string reported by
an adapter is retained as a bare string (only the markdown sink wraps it into
a one-element list when rendering). -/
theorem finalize_authors_spec (r : ArticleRecord) :
    (finalize r).authors.isSome = true ∧
    (truthyAuthors r.authors = false → (finalize r).authors = some (.list [])) ∧
    (∀ s, s ≠ "" → r.authors = some (.str s) →
      (finalize r).authors = some (.str s)) ∧
    (∀ l, r.authors = some (.list l) →
      authorsIsSequence (finalize r).authors = true) := by
  refine ⟨?_, ?_, ?_, ?_⟩
  · unfold finalize
    by_cases h : truthyAuthors r.authors = true
    · simp only [h, if_true]
      cases hr : r.authors with
      | none => rw [hr] at h; simp [truthyAuthors] at h
      | some v => simp [hr]
    · simp [h]
  · intro h
    unfold finalize
    simp [h]
  · intro s hs hr
    unfold finalize
    simp [truthyAuthors, hr, hs]
  · intro l hl
    unfold finalize
    rw [hl]
    cases hL : l.isEmpty
    · simp [truthyAuthors, hL, hl, authorsIsSequence]
    · simp [truthyAuthors, hL, authorsIsSequence]

/-- C5: neither adapter lets an exception escape.  In the trafilatura adapter
the only call that can raise in this model (`json.loads`) sits inside the
`try/except`; in the newspaper adapter the whole body does.  Every adapter
invocation therefore yields an `ok` value — a result or `none` — never a
propagated exception. -/
theorem adapters_never_raise
    (fetch_url extract : String → Option String)
    (json_loads : String → Except PyExn TrafData)
    (newspaper_ok : Bool)
    (download_parse : String → Except PyExn NewspaperArticle)
    (nlp : NewspaperArticle → Except PyExn Unit)
    (loc : Int) (netloc url : String) :
    (∃ v, fetch_with_trafilatura fetch_url extract json_loads netloc url
      = .ok v) ∧
    (∃ w, fetch_with_newspaper newspaper_ok download_parse nlp loc netloc url
      = .ok w) := by
  constructor
  · unfold fetch_with_trafilatura
    cases fetch_url url with
    | none => exact ⟨none, rfl⟩
    | some downloaded =>
      dsimp only
      split
      · exact ⟨none, rfl⟩
      · cases extract downloaded with
        | none => exact ⟨none, rfl⟩
        | some rj =>
          dsimp only
          split
          · exact ⟨none, rfl⟩
          · exact ⟨_, rfl⟩
  · unfold fetch_with_newspaper
    split
    · exact ⟨none, rfl⟩
    · exact ⟨_, rfl⟩

/-- C8 (counterexample): the claim fails on the code.  With the system
timezone at UTC+7 and a naive (timezone-free) publish date, the adapter does
not pass the date through as returned: `astimezone` interprets the naive
datetime as system-local time and converts it to UTC, shifting the value and
attaching a UTC offset. -/
theorem newspaper_naive_date_counterexample :
    newspaper_date 420 (some ⟨720, none⟩) ≠ some (isoformat ⟨720, none⟩) ∧
    newspaper_date 420 (some ⟨720, none⟩) = some (isoformat ⟨300, some 0⟩) := by
  exact ⟨by decide, rfl⟩

/-- C8 (amended): a timezone-aware publish date is converted to UTC by its
own offset and serialized; a naive publish date is not passed through — it is
interpreted as system-local time (offset `loc`) and likewise converted to UTC
before serialization; no publish date yields no date string. -/
theorem newspaper_date_spec (loc : Int) (d : PyDatetime) :
    (∀ o, d.tz = some o →
      newspaper_date loc (some d) = some (isoformat ⟨d.wall - o, some 0⟩)) ∧
    (d.tz = none →
      newspaper_date loc (some d) = some (isoformat ⟨d.wall - loc, some 0⟩)) ∧
    newspaper_date loc none = none := by
  refine ⟨?_, ?_, rfl⟩
  · intro o ho
    simp [newspaper_date, astimezone_utc, ho]
  · intro ho
    simp [newspaper_date, astimezone_utc, ho]

/-- C9: when the robots check itself raises (policy resource unreachable),
`robots_allowed` returns `True`; and in the batch loop of `main`, a URL the
gate denies is skipped while the remaining URLs are processed exactly as they
would have been. -/
theorem robots_gate_spec (e : PyExn) (can_fetch : Bool)
    (allowed : String → Bool) (handle : String → ArticleRecord)
    (url : String) (rest : List String)
    (hdeny : allowed url = false) :
    robots_allowed (.error e) can_fetch = true ∧
    process_urls false allowed handle (url :: rest) =
      process_urls false allowed handle rest := by
  refine ⟨rfl, ?_⟩
  simp only [process_urls, hdeny]
  simp

/-- Every member of the whitespace-collapsed list is either a hyphen or a
non-whitespace member of the input list. -/
theorem mem_collapseWs (c : Char) :
    ∀ l : List Char, c ∈ collapseWs l →
      c = '-' ∨ (c ∈ l ∧ isPySpace c = false) := by
  intro l
  induction l with
  | nil => intro h; simp [collapseWs] at h
  | cons c1 rest ih =>
    intro h
    cases rest with
    | nil =>
      cases h1 : isPySpace c1 with
      | false =>
        simp [collapseWs, h1] at h
        exact Or.inr ⟨by simp [h], by rw [h]; exact h1⟩
      | true =>
        simp [collapseWs, h1] at h
        exact Or.inl h
    | cons c2 rest' =>
      cases h1 : isPySpace c1 with
      | false =>
        simp only [collapseWs, h1, Bool.false_eq_true, if_false] at h
        rcases List.mem_cons.mp h with h3 | h3
        · subst h3
          exact Or.inr ⟨List.mem_cons_self _ _, h1⟩
        · rcases ih h3 with h4 | ⟨h5, h6⟩
          · exact Or.inl h4
          · exact Or.inr ⟨List.mem_cons_of_mem _ h5, h6⟩
      | true =>
        cases h2 : isPySpace c2 with
        | true =>
          simp only [collapseWs, h1, h2, if_true] at h
          rcases ih h with h4 | ⟨h5, h6⟩
          · exact Or.inl h4
          · exact Or.inr ⟨List.mem_cons_of_mem _ h5, h6⟩
        | false =>
          simp only [collapseWs, h1, h2, Bool.false_eq_true, if_true,
            if_false] at h
          rcases List.mem_cons.mp h with h3 | h3
          · exact Or.inl h3
          · rcases ih h3 with h4 | ⟨h5, h6⟩
            · exact Or.inl h4
            · exact Or.inr ⟨List.mem_cons_of_mem _ h5, h6⟩

/-- Dropping a prefix keeps only members of the original list. -/
theorem mem_of_mem_dropWhile {c : Char} {p : Char → Bool} {l : List Char}
    (h : c ∈ l.dropWhile p) : c ∈ l :=
  (List.dropWhile_sublist p).subset h

/-- Right-stripping keeps only members of the original list. -/
theorem mem_of_mem_rstrip {c : Char} {l : List Char}
    (h : c ∈ rstripDashUnderscore l) : c ∈ l := by
  unfold rstripDashUnderscore at h
  rw [List.mem_reverse] at h
  have h2 := mem_of_mem_dropWhile h
  rwa [List.mem_reverse] at h2

/-- Right-stripping does not lengthen a list. -/
theorem rstrip_length_le (l : List Char) :
    (rstripDashUnderscore l).length ≤ l.length := by
  unfold rstripDashUnderscore
  rw [List.length_reverse]
  calc (l.reverse.dropWhile _).length
      ≤ l.reverse.length := (List.dropWhile_sublist _).length_le
    _ = l.length := List.length_reverse l

/-- A kept character that is not whitespace is in the output alphabet. -/
theorem slugOutChar_of_keep {c : Char} (h1 : keepChar c = true)
    (h2 : isPySpace c = false) : slugOutChar c = true := by
  unfold keepChar at h1
  unfold slugOutChar
  rw [h2] at h1
  simpa using h1

/-- Every character surviving the filter-and-collapse stage of `slugify` is
in the output alphabet. -/
theorem slugOut_of_mem_pipeline {c : Char} {l : List Char}
    (h : c ∈ collapseWs (l.filter keepChar)) : slugOutChar c = true := by
  rcases mem_collapseWs c _ h with h1 | ⟨h2, h3⟩
  · subst h1; decide
  · exact slugOutChar_of_keep (List.of_mem_filter h2) h3

/-- Every character of `slugChars` is in the output alphabet. -/
theorem slugChars_chars (s : String) (max_len : Nat) :
    ∀ c ∈ slugChars s max_len, slugOutChar c = true := by
  intro c hc
  simp only [slugChars] at hc
  split at hc
  · have h1 := mem_of_mem_rstrip hc
    have h2 := (List.take_sublist _ _).subset h1
    exact slugOut_of_mem_pipeline h2
  · exact slugOut_of_mem_pipeline hc

/-- `slugChars` never exceeds the length bound. -/
theorem slugChars_length (s : String) (max_len : Nat) :
    (slugChars s max_len).length ≤ max_len := by
  simp only [slugChars]
  split
  · calc (rstripDashUnderscore _).length
        ≤ (List.take max_len _).length := rstrip_length_le _
      _ ≤ max_len := by
        rw [List.length_take]
        exact Nat.min_le_left _ _
  · next h => omega

/-- C10: for every input string and the default bound 80, `slugify` returns a
non-empty string of at most 80 characters drawn from lowercase letters,
digits, hyphen, underscore and dot, and an input whose character pipeline
reduces to nothing yields the constant string untitled. -/
theorem slugify_spec (s : String) :
    slugify s 80 ≠ "" ∧
    (slugify s 80).length ≤ 80 ∧
    (∀ c ∈ (slugify s 80).data, slugOutChar c = true) ∧
    (slugChars s 80 = [] → slugify s 80 = "untitled") := by
  refine ⟨?_, ?_, ?_, ?_⟩
  · simp only [slugify]
    split
    · decide
    · next h =>
      intro hcontra
      have h0 : slugChars s 80 = [] := congrArg String.data hcontra
      rw [h0] at h
      simp at h
  · simp only [slugify]
    split
    · decide
    · simpa [String.length] using slugChars_length s 80
  · intro c hc
    simp only [slugify] at hc
    split at hc
    · fin_cases hc <;> decide
    · exact slugChars_chars s 80 c hc
  · intro h
    simp [slugify, h]

/-- Witness for C1 at a concrete sufficient primary record: the coalescer
returns it unchanged and two different fallback adapters give the same
result. -/
theorem coalesce_primary_sufficient_witness :
    coalesce_article (fun u => some (wPrimarySufficient u)) (fun _ => none)
        "http://x/a" = wPrimarySufficient "http://x/a" ∧
    coalesce_article (fun u => some (wPrimarySufficient u)) (fun _ => none)
        "http://x/a" =
      coalesce_article (fun u => some (wPrimarySufficient u))
        (fun u => some (stubRecord u)) "http://x/a" :=
  coalesce_primary_sufficient _ _ _ "http://x/a" _ rfl (by decide)

/-- Witness for C2 on the spec's second end-to-end scenario: insufficient
primary with date and sitename, sufficient fallback lacking both; the
fallback's title and text are kept and the two missing fields are
back-filled from the primary. -/
theorem coalesce_fallback_backfill_witness :
    (coalesce_article (fun v => some (wPartialPrimary v))
        (fun v => some (wFallbackSufficient v)) "http://x/b").title
      = some "T" ∧
    (coalesce_article (fun v => some (wPartialPrimary v))
        (fun v => some (wFallbackSufficient v)) "http://x/b").text
      = some "Body" ∧
    (coalesce_article (fun v => some (wPartialPrimary v))
        (fun v => some (wFallbackSufficient v)) "http://x/b").date
      = some "2023-05-01" ∧
    (coalesce_article (fun v => some (wPartialPrimary v))
        (fun v => some (wFallbackSufficient v)) "http://x/b").authors
      = some (.list []) ∧
    (coalesce_article (fun v => some (wPartialPrimary v))
        (fun v => some (wFallbackSufficient v)) "http://x/b").sitename
      = some "site.com" := by
  have h := coalesce_fallback_backfill (fun v => some (wPartialPrimary v))
    (fun v => some (wFallbackSufficient v)) "http://x/b" _ (by decide) rfl
    (by decide)
  simpa [wPartialPrimary, wFallbackSufficient, truthyStr, truthyAuthors]
    using h

/-- Witness for C3: both adapters empty yields exactly the URL-only stub. -/
theorem coalesce_insufficient_witness :
    coalesce_article (fun _ => none) (fun _ => none) "http://x/c" =
      { url := "http://x/c", title := none, authors := none, date := none,
        text := none, sitename := none } :=
  (coalesce_insufficient (fun _ => none) (fun _ => none) "http://x/c"
    (by decide) (by decide)).2 rfl

/-- Witness for C4's amended statement: finalizing a record without authors
installs the empty list. -/
theorem finalize_authors_spec_witness :
    (finalize (stubRecord "http://x/f")).authors = some (.list []) :=
  (finalize_authors_spec (stubRecord "http://x/f")).2.1 (by decide)

/-- Witness for C6 at two adapter pairs that agree on the given URL. -/
theorem coalesce_deterministic_witness :
    coalesce_article (fun _ => none) (fun _ => none) "http://x/g" =
      coalesce_article
        (fun u => if u == "zzz" then some (stubRecord u) else none)
        (fun _ => none) "http://x/g" :=
  coalesce_deterministic _ _ _ _ "http://x/g" (by decide) rfl

/-- Witness for C7 with adapters returning nothing: the stub still carries
the input URL. -/
theorem coalesce_url_preserved_witness :
    (coalesce_article (fun _ => none) (fun _ => none) "http://x/h").url =
      "http://x/h" :=
  (coalesce_url_preserved (fun _ => none) (fun _ => none) "http://x/h"
    (fun _ h => nomatch h) (fun _ h => nomatch h)).1

/-- Witness for C8's amended statement: an aware date is shifted by its own
offset. -/
theorem newspaper_date_spec_witness :
    newspaper_date 420 (some ⟨720, some 60⟩) =
      some (isoformat ⟨720 - 60, some 0⟩) :=
  (newspaper_date_spec 420 ⟨720, some 60⟩).1 60 rfl

/-- Witness for C9: a denied URL is dropped from a concrete batch while the
rest is processed. -/
theorem robots_gate_spec_witness :
    robots_allowed (.error (.exn "unreachable")) false = true ∧
    process_urls false (fun _ => false) (fun u => stubRecord u)
        ["http://x/d", "http://x/e"] =
      process_urls false (fun _ => false) (fun u => stubRecord u)
        ["http://x/e"] :=
  robots_gate_spec (.exn "unreachable") false (fun _ => false)
    (fun u => stubRecord u) "http://x/d" ["http://x/e"] rfl

/-- Witness for C10 at an input that reduces to nothing. -/
theorem slugify_spec_witness :
    slugChars "@@@" 80 = [] ∧ slugify "@@@" 80 = "untitled" :=
  ⟨by decide, (slugify_spec "@@@").2.2.2 (by decide)⟩
